import Mathlib

/-!
Shallow embedding of the Conway game-of-life plugin in src/src/conway.rs
(repository bevy-interactive-gol).  Machine integers are modelled as Nat,
f32 window/cursor arithmetic as rationals, panics as Option.none, and the
GPU command encoding performed by the render node as an explicit list of
effects.
-/

namespace BevyGol

/-- Mirrors the constant SCALE_FACTOR in conway.rs. -/
def SCALE_FACTOR : Nat := 10

/-- Mirrors the constant SIZE in conway.rs. -/
def SIZE : Nat × Nat := (128 * SCALE_FACTOR, 72 * SCALE_FACTOR)

/-- Mirrors the constant WORKGROUP_SIZE in conway.rs. -/
def WORKGROUP_SIZE : Nat × Nat := (8, 8)

/-- Bevy Vec2, with f32 components modelled as rationals. -/
structure Vec2 where
  x : ℚ
  y : ℚ
deriving DecidableEq, Repr

/-- The state of a queued pipeline in the bevy PipelineCache
(Queued, Ok(pipeline) or Err(error)); the payloads are abstracted to an id
and a message. -/
inductive CachedPipelineState where
  | Queued : CachedPipelineState
  | Ok : Nat → CachedPipelineState
  | Err : String → CachedPipelineState
deriving DecidableEq, Repr

/-- The pipeline-stage enum ConwayState of the render node. -/
inductive ConwayState where
  | Loading : ConwayState
  | Init : ConwayState
  | Update : ConwayState
deriving DecidableEq, Repr

/-- The ConwayPipeline resource: cached pipeline ids (payload creation code
is engine boilerplate and is abstracted to the ids the code later looks up). -/
structure ConwayPipeline where
  texture_bind_group_layout : Nat
  init_pipeline : Nat
  update_pipeline : Nat
  set_cells_pipeline : Nat

/-- A view of the bevy PipelineCache: what each lookup used by conway.rs
returns.  get_compute_pipeline and get_render_pipeline return none when the
pipeline is not ready (the code unwraps these). -/
structure PipelineCache where
  get_compute_pipeline_state : Nat → CachedPipelineState
  get_compute_pipeline : Nat → Option Nat
  get_render_pipeline : Nat → Option Nat

/-- ConwayRenderNode::update: the pipeline-stage state machine.  Directly
transcribes the match in conway.rs lines 333-345. -/
def node_update (s : ConwayState) (pipeline : ConwayPipeline)
    (pipeline_cache : PipelineCache) : ConwayState :=
  match s with
  | ConwayState.Loading =>
    match pipeline_cache.get_compute_pipeline_state pipeline.init_pipeline with
    | CachedPipelineState.Ok _ => ConwayState.Init
    | _ => ConwayState.Loading
  | ConwayState.Init =>
    match pipeline_cache.get_compute_pipeline_state pipeline.update_pipeline with
    | CachedPipelineState.Ok _ => ConwayState.Update
    | _ => ConwayState.Init
  | ConwayState.Update => ConwayState.Update

/-- Rank of a pipeline stage in the Loading to Init to Update progression. -/
def state_rank : ConwayState → Nat
  | ConwayState.Loading => 0
  | ConwayState.Init => 1
  | ConwayState.Update => 2

/-- True exactly when a cached pipeline state matches
CachedPipelineState::Ok(_). -/
def is_ok_state : CachedPipelineState → Bool
  | CachedPipelineState.Ok _ => true
  | _ => false

/-- A GPU image as seen from the render world (RenderAssets entry): its
texture and texture view are abstracted to ids, the size to two naturals. -/
structure GpuImage where
  texture : Nat
  texture_view : Nat
  size_x : Nat
  size_y : Nat
deriving DecidableEq, Repr

/-- Load operation of a render-pass color attachment. -/
inductive LoadOp where
  | Load : LoadOp
  | Clear : LoadOp
deriving DecidableEq, Repr

/-- One GPU effect recorded by ConwayRenderNode::run: a vertex-buffer
creation, a render pass (view, load op, pipeline, vertex data, vertex range,
instance range), or a compute pass (bind group, pipeline, workgroup counts). -/
inductive RunEffect where
  | createVertexBuffer : List Vec2 → RunEffect
  | renderPass : Nat → LoadOp → Nat → List Vec2 → Nat × Nat → Nat × Nat → RunEffect
  | computePass : Nat → Nat → Nat × Nat × Nat → RunEffect
deriving DecidableEq, Repr

/-- The error type of a render-graph node (bevy NodeRunError); conway.rs
never constructs a value of it. -/
inductive NodeRunError where
  | slotError : String → NodeRunError
deriving DecidableEq, Repr

/-- The slice of the render world read by ConwayRenderNode::run. -/
structure RunWorld where
  pipeline : ConwayPipeline
  pipeline_cache : PipelineCache
  gpu_images : Nat → Option GpuImage
  conway_world : Nat
  set_cells : List Vec2
  texture_bind_group : Nat

/-- The set-cells pass encoded at the top of ConwayRenderNode::run
(conway.rs lines 364-387): when SetCells is non-empty, create a vertex
buffer with its contents and encode a render pass over the state texture
that loads the existing contents and draws one point per entry.  Returns
none when one of the two unwraps (missing gpu image, pipeline not ready)
panics. -/
def set_cells_pass (w : RunWorld) : Option (List RunEffect) :=
  if w.set_cells.isEmpty then some []
  else
    (w.gpu_images w.conway_world).bind fun gpu_image =>
      (w.pipeline_cache.get_render_pipeline w.pipeline.set_cells_pipeline).map fun rp =>
        [RunEffect.createVertexBuffer w.set_cells,
         RunEffect.renderPass gpu_image.texture_view LoadOp.Load rp
           w.set_cells (0, w.set_cells.length) (0, 1)]

/-- ConwayRenderNode::run (conway.rs lines 348-408).  Returns none on a
panic (a failed unwrap), otherwise the list of encoded GPU effects together
with the Result value the function returns. -/
def node_run (s : ConwayState) (w : RunWorld) :
    Option (List RunEffect × Except NodeRunError Unit) :=
  (set_cells_pass w).bind fun setCellsEffects =>
    match s with
    | ConwayState.Loading =>
      some (setCellsEffects, Except.ok ())
    | ConwayState.Init =>
      (w.pipeline_cache.get_compute_pipeline w.pipeline.init_pipeline).map fun cp =>
        (setCellsEffects ++
          [RunEffect.computePass w.texture_bind_group cp
            (SIZE.1 / WORKGROUP_SIZE.1, SIZE.2 / WORKGROUP_SIZE.2, 1)],
          Except.ok ())
    | ConwayState.Update =>
      (w.pipeline_cache.get_compute_pipeline w.pipeline.update_pipeline).map fun cp =>
        (setCellsEffects ++
          [RunEffect.computePass w.texture_bind_group cp
            (SIZE.1 / WORKGROUP_SIZE.1, SIZE.2 / WORKGROUP_SIZE.2, 1)],
          Except.ok ())

/-- True exactly on compute-pass effects. -/
def is_compute_pass : RunEffect → Bool
  | RunEffect.computePass _ _ _ => true
  | _ => false

/-- True exactly on the effects of the set-cells path: vertex-buffer
creation and render passes. -/
def is_set_cells_effect : RunEffect → Bool
  | RunEffect.createVertexBuffer _ => true
  | RunEffect.renderPass _ _ _ _ _ _ => true
  | RunEffect.computePass _ _ _ => false

/-- Mouse-button input state as queried by handle_mouse_click. -/
structure MouseInput where
  just_pressed_left : Bool

/-- The primary window as queried by handle_mouse_click: f32 width, height
and cursor position are modelled as rationals. -/
structure WindowState where
  width : ℚ
  height : ℚ
  cursor_position : Option Vec2

/-- handle_mouse_click (conway.rs lines 138-153): on a fresh left click
with a known cursor position, push the clip-space coordinate onto SetCells. -/
def handle_mouse_click (set_cells : List Vec2) (mouse_button_input : MouseInput)
    (window : WindowState) : List Vec2 :=
  if mouse_button_input.just_pressed_left then
    match window.cursor_position with
    | some cursor_pos =>
      let x := (cursor_pos.x / window.width) * 2 - 1
      let y := (cursor_pos.y / window.height) * 2 - 1
      set_cells ++ [Vec2.mk x (-y)]
    | none => set_cells
  else set_cells

/-- clear_set_cells (conway.rs lines 134-136): empties the SetCells list. -/
def clear_set_cells (_set_cells : List Vec2) : List Vec2 := []

/-- The SetCells contents seen by systems after the First schedule of a
frame: the First schedule runs clear_set_cells, then the Update schedule
runs handle_mouse_click with the input and window of that frame. -/
def frame_set_cells (prev : List Vec2) (mouse_button_input : MouseInput)
    (window : WindowState) : List Vec2 :=
  handle_mouse_click (clear_set_cells prev) mouse_button_input window

/-- The schedule labels used by ConwayPlugin::build. -/
inductive Schedule where
  | First : Schedule
  | Startup : Schedule
  | FixedUpdate : Schedule
  | Update : Schedule
deriving DecidableEq, Repr

/-- The main-world systems of the plugin, named after the functions of
conway.rs. -/
inductive SystemId where
  | clear_set_cells : SystemId
  | setup : SystemId
  | render_living_cells : SystemId
  | handle_mouse_click : SystemId
deriving DecidableEq, Repr

/-- The main-app system registrations of ConwayPlugin::build
(conway.rs lines 49-52). -/
def conway_plugin_main_systems : List (Schedule × SystemId) :=
  [(Schedule.First, SystemId.clear_set_cells),
   (Schedule.Startup, SystemId.setup),
   (Schedule.FixedUpdate, SystemId.render_living_cells),
   (Schedule.Update, SystemId.handle_mouse_click)]

/-- Texture usage flags. -/
inductive TextureUsage where
  | COPY_SRC : TextureUsage
  | RENDER_ATTACHMENT : TextureUsage
  | COPY_DST : TextureUsage
  | STORAGE_BINDING : TextureUsage
  | TEXTURE_BINDING : TextureUsage
deriving DecidableEq, Repr

/-- The image created by setup: size, fill bytes, usage flags and whether
the nearest sampler is selected. -/
structure ImageDesc where
  width : Nat
  height : Nat
  fill : List Nat
  usage : List TextureUsage
  nearest_sampler : Bool
deriving DecidableEq, Repr

/-- The observable outcome of setup: the created image, the handle returned
by Assets::add, the texture handle of the spawned sprite, and the handle
stored in the ConwayWorld resource. -/
structure SetupResult where
  image : ImageDesc
  image_handle : Nat
  sprite_texture : Nat
  conway_world : Nat
deriving DecidableEq, Repr

/-- setup (conway.rs lines 84-124): creates the state image, spawns a
sprite over it and stores its handle in ConwayWorld.  Assets::add is
modelled as handing out the fresh handle passed in. -/
def setup (fresh_handle : Nat) : SetupResult :=
  { image :=
      { width := SIZE.1
        height := SIZE.2
        fill := [0, 0, 0, 255]
        usage := [TextureUsage.COPY_SRC, TextureUsage.RENDER_ATTACHMENT,
                  TextureUsage.COPY_DST, TextureUsage.STORAGE_BINDING,
                  TextureUsage.TEXTURE_BINDING]
        nearest_sampler := true }
    image_handle := fresh_handle
    sprite_texture := fresh_handle
    conway_world := fresh_handle }

/-- One entry of the compute bind group: a binding index and the bound
texture view. -/
structure BindGroupEntry where
  binding : Nat
  texture_view : Nat
deriving DecidableEq, Repr

/-- The bind group produced by prepare_bind_group. -/
structure BindGroup where
  layout : Nat
  entries : List BindGroupEntry
deriving DecidableEq, Repr

/-- prepare_bind_group (conway.rs lines 276-296): looks the ConwayWorld
image up in RenderAssets (unwrap: none means a panic) and binds its texture
view at binding 0. -/
def prepare_bind_group (gpu_images : Nat → Option GpuImage)
    (conway_state : Nat) (layout : Nat) : Option BindGroup :=
  match gpu_images conway_state with
  | none => none
  | some image =>
    some { layout := layout
           entries := [{ binding := 0, texture_view := image.texture_view }] }

/-- Buffer usage flags. -/
inductive BufferUsage where
  | COPY_DST : BufferUsage
  | MAP_READ : BufferUsage
  | VERTEX : BufferUsage
deriving DecidableEq, Repr

/-- A buffer descriptor as passed to create_buffer. -/
structure BufferDescriptor where
  size : Nat
  usage : List BufferUsage
  mapped_at_creation : Bool
deriving DecidableEq, Repr

/-- prepare_resources (conway.rs lines 303-314): the descriptor of the
readback output buffer. -/
def prepare_resources : BufferDescriptor :=
  { size := SIZE.1 * SIZE.2 * 4
    usage := [BufferUsage.COPY_DST, BufferUsage.MAP_READ]
    mapped_at_creation := false }

/-- Rust slice::chunks(4): splits a byte list into chunks of four, the last
chunk possibly shorter.  Bytes are Nat values below 256 in intent. -/
def chunks4 : List Nat → List (List Nat)
  | [] => []
  | [a] => [[a]]
  | [a, b] => [[a, b]]
  | [a, b, c] => [[a, b, c]]
  | a :: b :: c :: d :: rest => [a, b, c, d] :: chunks4 rest

/-- The per-pixel fold of update_living_cells (conway.rs lines 454-455):
take the first byte of each 4-byte chunk, then fold counting bytes equal
to 255. -/
def count_alive (bytes : List Nat) : Nat :=
  ((chunks4 bytes).map (fun c => c.headD 0)).foldl
    (fun acc x => acc + if x = 255 then 1 else 0) 0

/-- One observable step of update_living_cells, in program order. -/
inductive ReadbackEvent where
  | copyTextureToBuffer : Nat → Nat → Nat → Nat → Nat → ReadbackEvent
  | submit : ReadbackEvent
  | mapBufferRequest : ReadbackEvent
  | pollWait : ReadbackEvent
  | callbackSend : ReadbackEvent
  | recvComplete : ReadbackEvent
  | getMappedRange : ReadbackEvent
deriving DecidableEq, Repr

/-- The outcome of update_living_cells when it does not panic: its event
trace and the LivingCells value it stores. -/
structure ReadbackOutcome where
  events : List ReadbackEvent
  living_cells : Nat
deriving DecidableEq, Repr

/-- update_living_cells (conway.rs lines 412-457).  Parameters model the
engine environment: the RenderAssets lookup of the ConwayWorld image,
whether the poll with Maintain::Wait ran the map callback, the result the
callback received, and the bytes the mapped buffer holds.  Returns none on
a panic: a missing gpu image (unwrap), a map error (explicit panic inside
the callback), or an empty channel at try_recv (unwrap) when the callback
has not run. -/
def update_living_cells (gpu_image : Option GpuImage) (callback_ran : Bool)
    (map_result : Except String Unit) (bytes : List Nat) :
    Option ReadbackOutcome :=
  match gpu_image with
  | none => none
  | some img =>
    let pre : List ReadbackEvent :=
      [ReadbackEvent.copyTextureToBuffer img.texture (4 * SIZE.1) SIZE.2
        img.size_x img.size_y,
       ReadbackEvent.submit,
       ReadbackEvent.mapBufferRequest,
       ReadbackEvent.pollWait]
    if callback_ran then
      match map_result with
      | Except.error _ => none
      | Except.ok _ =>
        some { events := pre ++ [ReadbackEvent.callbackSend,
                 ReadbackEvent.recvComplete, ReadbackEvent.getMappedRange]
               living_cells := count_alive bytes }
    else none

/-- An RGBA pixel: four byte channels, red first. -/
structure RGBA where
  r : Nat
  g : Nat
  b : Nat
  a : Nat
deriving DecidableEq, Repr

/-- The byte stream of a pixel list in the output buffer layout: four bytes
per pixel, red first. -/
def encode_pixels : List RGBA → List Nat
  | [] => []
  | p :: rest => p.r :: p.g :: p.b :: p.a :: encode_pixels rest

/-- A concrete pipeline-cache view in which every queued pipeline is ready. -/
def ready_cache : PipelineCache :=
  { get_compute_pipeline_state := fun _ => CachedPipelineState.Ok 0
    get_compute_pipeline := fun id => some id
    get_render_pipeline := fun id => some id }

/-- A concrete ConwayPipeline resource. -/
def example_pipeline : ConwayPipeline :=
  { texture_bind_group_layout := 0
    init_pipeline := 1
    update_pipeline := 2
    set_cells_pipeline := 3 }

/-- A concrete gpu image for the state texture. -/
def example_image : GpuImage :=
  { texture := 4, texture_view := 5, size_x := SIZE.1, size_y := SIZE.2 }

/-- A concrete render world with one pending click. -/
def example_world : RunWorld :=
  { pipeline := example_pipeline
    pipeline_cache := ready_cache
    gpu_images := fun _ => some example_image
    conway_world := 7
    set_cells := [Vec2.mk 0 0]
    texture_bind_group := 9 }

/-- A concrete render world with no pending clicks. -/
def example_world_empty : RunWorld :=
  { pipeline := example_pipeline
    pipeline_cache := ready_cache
    gpu_images := fun _ => some example_image
    conway_world := 7
    set_cells := []
    texture_bind_group := 9 }

/-- The effects of the set-cells pass in example_world. -/
def example_set_cells_effects : List RunEffect :=
  [RunEffect.createVertexBuffer [Vec2.mk 0 0],
   RunEffect.renderPass 5 LoadOp.Load 3 [Vec2.mk 0 0] (0, 1) (0, 1)]

/-- The effects encoded by node_run in the Init stage of example_world_empty. -/
def example_init_effects : List RunEffect :=
  [RunEffect.computePass 9 1 (160, 90, 1)]

/-- The outcome of update_living_cells on example_image with an empty
buffer. -/
def example_readback_outcome : ReadbackOutcome :=
  { events := [ReadbackEvent.copyTextureToBuffer 4 (4 * SIZE.1) SIZE.2 SIZE.1 SIZE.2,
               ReadbackEvent.submit, ReadbackEvent.mapBufferRequest,
               ReadbackEvent.pollWait, ReadbackEvent.callbackSend,
               ReadbackEvent.recvComplete, ReadbackEvent.getMappedRange]
    living_cells := 0 }

/-- A concrete window for the click witness. -/
def example_window : WindowState :=
  { width := 800, height := 600, cursor_position := some (Vec2.mk 200 150) }

/-- A concrete fresh-left-click input. -/
def example_click_input : MouseInput := { just_pressed_left := true }

/-! ### Helper lemmas about the render node -/

/-- A successful set-cells pass is fully characterized by the SetCells
list and the two engine lookups. -/
theorem set_cells_pass_spec (w : RunWorld) (fx : List RunEffect)
    (h : set_cells_pass w = some fx) :
    (w.set_cells = [] ∧ fx = []) ∨
    (w.set_cells ≠ [] ∧ ∃ img rp,
      w.gpu_images w.conway_world = some img ∧
      w.pipeline_cache.get_render_pipeline w.pipeline.set_cells_pipeline = some rp ∧
      fx = [RunEffect.createVertexBuffer w.set_cells,
            RunEffect.renderPass img.texture_view LoadOp.Load rp
              w.set_cells (0, w.set_cells.length) (0, 1)]) := by
  unfold set_cells_pass at h
  by_cases he : w.set_cells.isEmpty
  · left
    rw [if_pos he] at h
    exact ⟨List.isEmpty_iff.mp he, (Option.some_injective _ h.symm)⟩
  · right
    rw [if_neg he] at h
    rw [Option.bind_eq_some] at h
    obtain ⟨img, himg, h⟩ := h
    rw [Option.map_eq_some'] at h
    obtain ⟨rp, hrp, h⟩ := h
    exact ⟨fun hnil => he (by simp [hnil]), img, rp, himg, hrp, h.symm⟩

/-- The effects of a successful set-cells pass contain no compute pass. -/
theorem set_cells_pass_no_compute (w : RunWorld) (fx : List RunEffect)
    (h : set_cells_pass w = some fx) : fx.filter is_compute_pass = [] := by
  rcases set_cells_pass_spec w fx h with ⟨-, rfl⟩ | ⟨-, img, rp, -, -, rfl⟩
  · rfl
  · simp [is_compute_pass]

/-- A successful node_run is fully characterized: a successful set-cells
pass, the Ok result, and per stage the encoded compute dispatch. -/
theorem node_run_spec (s : ConwayState) (w : RunWorld) (fx : List RunEffect)
    (r : Except NodeRunError Unit) (h : node_run s w = some (fx, r)) :
    ∃ sc, set_cells_pass w = some sc ∧ r = Except.ok () ∧
      (match s with
       | ConwayState.Loading => fx = sc
       | ConwayState.Init => ∃ cp,
           w.pipeline_cache.get_compute_pipeline w.pipeline.init_pipeline = some cp ∧
           fx = sc ++ [RunEffect.computePass w.texture_bind_group cp
             (SIZE.1 / WORKGROUP_SIZE.1, SIZE.2 / WORKGROUP_SIZE.2, 1)]
       | ConwayState.Update => ∃ cp,
           w.pipeline_cache.get_compute_pipeline w.pipeline.update_pipeline = some cp ∧
           fx = sc ++ [RunEffect.computePass w.texture_bind_group cp
             (SIZE.1 / WORKGROUP_SIZE.1, SIZE.2 / WORKGROUP_SIZE.2, 1)]) := by
  unfold node_run at h
  rw [Option.bind_eq_some] at h
  obtain ⟨sc, hsc, h⟩ := h
  refine ⟨sc, hsc, ?_⟩
  cases s with
  | Loading =>
    obtain ⟨hfx, hr⟩ := Prod.mk.injEq _ _ _ _ ▸ Option.some_injective _ h
    exact ⟨hr.symm, hfx.symm⟩
  | Init =>
    rw [Option.map_eq_some'] at h
    obtain ⟨cp, hcp, h⟩ := h
    obtain ⟨hfx, hr⟩ := Prod.mk.injEq _ _ _ _ ▸ h
    exact ⟨hr.symm, cp, hcp, hfx.symm⟩
  | Update =>
    rw [Option.map_eq_some'] at h
    obtain ⟨cp, hcp, h⟩ := h
    obtain ⟨hfx, hr⟩ := Prod.mk.injEq _ _ _ _ ▸ h
    exact ⟨hr.symm, cp, hcp, hfx.symm⟩

/-! ### Claim theorems -/

/-- C1: the pipeline-stage state machine progresses Loading to Init to
Update and nothing else: Loading moves to Init exactly when the cached init
pipeline is Ok and otherwise stays Loading, Init moves to Update exactly
when the cached update pipeline is Ok and otherwise stays Init, Update
stays Update forever, and no transition moves backward or skips a stage. -/
theorem c1_pipeline_stage_state_machine (p : ConwayPipeline) (c : PipelineCache) :
    (node_update ConwayState.Loading p c = ConwayState.Init ↔
      is_ok_state (c.get_compute_pipeline_state p.init_pipeline) = true) ∧
    (node_update ConwayState.Loading p c = ConwayState.Loading ↔
      is_ok_state (c.get_compute_pipeline_state p.init_pipeline) = false) ∧
    (node_update ConwayState.Init p c = ConwayState.Update ↔
      is_ok_state (c.get_compute_pipeline_state p.update_pipeline) = true) ∧
    (node_update ConwayState.Init p c = ConwayState.Init ↔
      is_ok_state (c.get_compute_pipeline_state p.update_pipeline) = false) ∧
    node_update ConwayState.Update p c = ConwayState.Update ∧
    (∀ s, state_rank s ≤ state_rank (node_update s p c) ∧
      state_rank (node_update s p c) ≤ state_rank s + 1) := by
  refine ⟨?_, ?_, ?_, ?_, ?_, ?_⟩
  · cases hst : c.get_compute_pipeline_state p.init_pipeline <;>
      simp [node_update, hst, is_ok_state]
  · cases hst : c.get_compute_pipeline_state p.init_pipeline <;>
      simp [node_update, hst, is_ok_state]
  · cases hst : c.get_compute_pipeline_state p.update_pipeline <;>
      simp [node_update, hst, is_ok_state]
  · cases hst : c.get_compute_pipeline_state p.update_pipeline <;>
      simp [node_update, hst, is_ok_state]
  · rfl
  · intro s
    cases s with
    | Loading =>
      cases hst : c.get_compute_pipeline_state p.init_pipeline <;>
        simp [node_update, hst, state_rank]
    | Init =>
      cases hst : c.get_compute_pipeline_state p.update_pipeline <;>
        simp [node_update, hst, state_rank]
    | Update => simp [node_update, state_rank]

/-- Witness for C1 at a concrete ready cache. -/
theorem c1_pipeline_stage_state_machine_witness :
    node_update ConwayState.Loading example_pipeline ready_cache = ConwayState.Init ∧
    node_update ConwayState.Init example_pipeline ready_cache = ConwayState.Update :=
  ⟨(c1_pipeline_stage_state_machine example_pipeline ready_cache).1.mpr (by decide),
   (c1_pipeline_stage_state_machine example_pipeline ready_cache).2.2.1.mpr (by decide)⟩

/-- Unfolding chunks4 on at least four elements. -/
theorem chunks4_cons4 (a b c d : Nat) (rest : List Nat) :
    chunks4 (a :: b :: c :: d :: rest) = [a, b, c, d] :: chunks4 rest := by
  simp [chunks4]

/-- The counting fold of update_living_cells counts list entries equal
to 255. -/
theorem alive_fold_count (l : List Nat) (acc : Nat) :
    l.foldl (fun acc x => acc + if x = 255 then 1 else 0) acc =
      acc + (l.filter (fun x => x == 255)).length := by
  induction l generalizing acc with
  | nil => simp
  | cons a l ih =>
    simp only [List.foldl_cons, List.filter_cons]
    rw [ih]
    by_cases ha : a = 255
    · simp [ha]
      omega
    · simp [ha]

/-- count_alive counts the first bytes of the 4-byte chunks equal to 255. -/
theorem count_alive_eq (l : List Nat) :
    count_alive l =
      (((chunks4 l).map (fun c => c.headD 0)).filter (fun x => x == 255)).length := by
  unfold count_alive
  rw [alive_fold_count]
  omega

/-- The first bytes of the chunks of an encoded pixel list are the red
channels. -/
theorem chunks4_encode_heads (pixels : List RGBA) :
    (chunks4 (encode_pixels pixels)).map (fun c => c.headD 0) =
      pixels.map RGBA.r := by
  induction pixels with
  | nil => simp [encode_pixels, chunks4]
  | cons p ps ih =>
    rw [encode_pixels, chunks4_cons4, List.map_cons, ih, List.map_cons]
    rfl

/-- count_alive over an encoded pixel list counts the pixels whose red
channel is exactly 255. -/
theorem count_alive_encode (pixels : List RGBA) :
    count_alive (encode_pixels pixels) =
      (pixels.filter (fun p => p.r == 255)).length := by
  rw [count_alive_eq, chunks4_encode_heads]
  induction pixels with
  | nil => rfl
  | cons p ps ih =>
    simp only [List.map_cons, List.filter_cons]
    cases h : (p.r == 255) <;> simp [h, ih]

/-- C2: the readback path copies the state texture into the output buffer,
maps the buffer for CPU read, and sets LivingCells to the number of 4-byte
RGBA pixels whose first byte (the red channel) equals exactly 255; pixels
with any other red value are not counted. -/
theorem c2_readback_counts_red_255 (img : GpuImage) (pixels : List RGBA) :
    update_living_cells (some img) true (Except.ok ()) (encode_pixels pixels) =
      some { events := [ReadbackEvent.copyTextureToBuffer img.texture
                          (4 * SIZE.1) SIZE.2 img.size_x img.size_y,
                        ReadbackEvent.submit, ReadbackEvent.mapBufferRequest,
                        ReadbackEvent.pollWait, ReadbackEvent.callbackSend,
                        ReadbackEvent.recvComplete, ReadbackEvent.getMappedRange]
             living_cells := (pixels.filter (fun p => p.r == 255)).length } := by
  simp [update_living_cells, count_alive_encode]

/-- C3: failure handling is panic-only: node_run never returns an Err
value on any path, a missing gpu image makes prepare_bind_group and
update_living_cells panic (modelled as none) rather than return a
recoverable error, and a map-callback error makes update_living_cells
panic. -/
theorem c3_panic_only :
    (∀ (s : ConwayState) (w : RunWorld) (fx : List RunEffect)
        (r : Except NodeRunError Unit),
        node_run s w = some (fx, r) → r = Except.ok ()) ∧
    (∀ (gpu_images : Nat → Option GpuImage) (handle layout : Nat),
        prepare_bind_group gpu_images handle layout = none ↔
          gpu_images handle = none) ∧
    (∀ (callback_ran : Bool) (map_result : Except String Unit)
        (bytes : List Nat),
        update_living_cells none callback_ran map_result bytes = none) ∧
    (∀ (img : GpuImage) (e : String) (bytes : List Nat),
        update_living_cells (some img) true (Except.error e) bytes = none) := by
  refine ⟨?_, ?_, ?_, ?_⟩
  · intro s w fx r h
    obtain ⟨sc, -, hr, -⟩ := node_run_spec s w fx r h
    exact hr
  · intro gi handle layout
    cases hg : gi handle <;> simp [prepare_bind_group, hg]
  · intro callback_ran map_result bytes
    rfl
  · intro img e bytes
    rfl

/-- Witness for C3 at concrete inputs. -/
theorem c3_panic_only_witness :
    (Except.ok () : Except NodeRunError Unit) = Except.ok () ∧
    prepare_bind_group (fun _ => none) 7 0 = none ∧
    update_living_cells none true (Except.ok ()) [] = none :=
  ⟨c3_panic_only.1 ConwayState.Loading example_world_empty [] (Except.ok ()) rfl,
   (c3_panic_only.2.1 (fun _ => none) 7 0).mpr rfl,
   c3_panic_only.2.2.1 true (Except.ok ()) []⟩

/-- C4: the buffer-map readback is a blocking wait: whenever
update_living_cells completes, the map callback ran and reported success,
and the single mapped-range read is the last event, strictly after the
device poll and after the completion signal was received; when the
callback has not run by the time of try_recv, the function panics and the
buffer is never read. -/
theorem c4_blocking_map_wait :
    (∀ (gpu_image : Option GpuImage) (callback_ran : Bool)
        (map_result : Except String Unit) (bytes : List Nat)
        (out : ReadbackOutcome),
        update_living_cells gpu_image callback_ran map_result bytes = some out →
        callback_ran = true ∧ map_result = Except.ok () ∧
        ∃ img, gpu_image = some img ∧
          out.events =
            [ReadbackEvent.copyTextureToBuffer img.texture (4 * SIZE.1) SIZE.2
               img.size_x img.size_y,
             ReadbackEvent.submit, ReadbackEvent.mapBufferRequest] ++
            [ReadbackEvent.pollWait, ReadbackEvent.callbackSend,
             ReadbackEvent.recvComplete, ReadbackEvent.getMappedRange] ∧
          ReadbackEvent.getMappedRange ∉
            [ReadbackEvent.copyTextureToBuffer img.texture (4 * SIZE.1) SIZE.2
               img.size_x img.size_y,
             ReadbackEvent.submit, ReadbackEvent.mapBufferRequest,
             ReadbackEvent.pollWait, ReadbackEvent.callbackSend,
             ReadbackEvent.recvComplete]) ∧
    (∀ (gpu_image : Option GpuImage) (map_result : Except String Unit)
        (bytes : List Nat),
        update_living_cells gpu_image false map_result bytes = none) := by
  constructor
  · intro gpu_image callback_ran map_result bytes out h
    cases gpu_image with
    | none => simp [update_living_cells] at h
    | some img =>
      cases callback_ran with
      | false => simp [update_living_cells] at h
      | true =>
        cases map_result with
        | error e => simp [update_living_cells] at h
        | ok u =>
          cases u
          simp only [update_living_cells, if_true, Option.some.injEq] at h
          subst h
          exact ⟨rfl, rfl, img, rfl, rfl, by simp⟩
  · intro gpu_image map_result bytes
    cases gpu_image <;> rfl

/-- Witness for C4 at a concrete readback. -/
theorem c4_blocking_map_wait_witness :
    true = true ∧ (Except.ok () : Except String Unit) = Except.ok () :=
  ⟨(c4_blocking_map_wait.1 (some example_image) true (Except.ok ()) []
      example_readback_outcome rfl).1,
   (c4_blocking_map_wait.1 (some example_image) true (Except.ok ()) []
      example_readback_outcome rfl).2.1⟩

/-- C5: per invocation of node_run exactly one stage behaviour occurs: in
Loading no compute pass is encoded and the node returns Ok early, in Init
the encoded compute passes are exactly one dispatch of the init pipeline,
and in Update exactly one dispatch of the update pipeline; a dispatch is
only encoded once the corresponding pipeline lookup in the cache yields a
pipeline. -/
theorem c5_run_stage_dispatch (s : ConwayState) (w : RunWorld)
    (fx : List RunEffect) (r : Except NodeRunError Unit)
    (h : node_run s w = some (fx, r)) :
    (s = ConwayState.Loading → fx.filter is_compute_pass = [] ∧ r = Except.ok ()) ∧
    (s = ConwayState.Init → ∃ cp,
        w.pipeline_cache.get_compute_pipeline w.pipeline.init_pipeline = some cp ∧
        fx.filter is_compute_pass =
          [RunEffect.computePass w.texture_bind_group cp
            (SIZE.1 / WORKGROUP_SIZE.1, SIZE.2 / WORKGROUP_SIZE.2, 1)]) ∧
    (s = ConwayState.Update → ∃ cp,
        w.pipeline_cache.get_compute_pipeline w.pipeline.update_pipeline = some cp ∧
        fx.filter is_compute_pass =
          [RunEffect.computePass w.texture_bind_group cp
            (SIZE.1 / WORKGROUP_SIZE.1, SIZE.2 / WORKGROUP_SIZE.2, 1)]) := by
  refine ⟨?_, ?_, ?_⟩
  · rintro rfl
    obtain ⟨sc, hsc, hr, hm⟩ := node_run_spec _ _ _ _ h
    have hfx : fx = sc := hm
    rw [hfx]
    exact ⟨set_cells_pass_no_compute w sc hsc, hr⟩
  · rintro rfl
    obtain ⟨sc, hsc, -, hm⟩ := node_run_spec _ _ _ _ h
    obtain ⟨cp, hcp, hfx⟩ := hm
    refine ⟨cp, hcp, ?_⟩
    rw [hfx, List.filter_append, set_cells_pass_no_compute w sc hsc]
    simp [is_compute_pass]
  · rintro rfl
    obtain ⟨sc, hsc, -, hm⟩ := node_run_spec _ _ _ _ h
    obtain ⟨cp, hcp, hfx⟩ := hm
    refine ⟨cp, hcp, ?_⟩
    rw [hfx, List.filter_append, set_cells_pass_no_compute w sc hsc]
    simp [is_compute_pass]

/-- Witness for C5: the Init stage of a concrete world encodes exactly one
init-pipeline dispatch. -/
theorem c5_run_stage_dispatch_witness :
    example_init_effects.filter is_compute_pass =
      [RunEffect.computePass example_world_empty.texture_bind_group 1
        (SIZE.1 / WORKGROUP_SIZE.1, SIZE.2 / WORKGROUP_SIZE.2, 1)] := by
  obtain ⟨cp, hcp, hfx⟩ :=
    (c5_run_stage_dispatch ConwayState.Init example_world_empty
      example_init_effects (Except.ok ()) rfl).2.1 rfl
  obtain rfl : (1 : Nat) = cp := Option.some_injective _ hcp
  exact hfx

/-- C6: on a frame where the left button was just pressed and the window
reports a cursor position, handle_mouse_click appends exactly the
clip-space coordinate obtained from the cursor position to SetCells;
otherwise SetCells is unchanged. -/
theorem c6_mouse_to_clip (set_cells : List Vec2) (input : MouseInput)
    (w : WindowState) :
    (∀ cp, input.just_pressed_left = true → w.cursor_position = some cp →
      handle_mouse_click set_cells input w =
        set_cells ++
          [Vec2.mk ((cp.x / w.width) * 2 - 1) (-((cp.y / w.height) * 2 - 1))]) ∧
    (input.just_pressed_left = false →
      handle_mouse_click set_cells input w = set_cells) ∧
    (w.cursor_position = none →
      handle_mouse_click set_cells input w = set_cells) := by
  refine ⟨?_, ?_, ?_⟩
  · intro cp hp hc
    simp [handle_mouse_click, hp, hc]
  · intro hp
    simp [handle_mouse_click, hp]
  · intro hc
    by_cases hp : input.just_pressed_left <;> simp [handle_mouse_click, hp, hc]

/-- Witness for C6: a click at (200, 150) in an 800 by 600 window. -/
theorem c6_mouse_to_clip_witness :
    handle_mouse_click [] example_click_input example_window =
      [Vec2.mk ((200 / 800) * 2 - 1) (-((150 / 600) * 2 - 1))] :=
  (c6_mouse_to_clip [] example_click_input example_window).1
    (Vec2.mk 200 150) rfl rfl

/-- C7: the simulation state is one texture: setup creates a single image
whose usages include STORAGE_BINDING and TEXTURE_BINDING as well as
COPY_SRC, COPY_DST and RENDER_ATTACHMENT, gives the sprite that same
handle, stores the same handle in ConwayWorld, and prepare_bind_group
binds that texture view at binding 0 of the compute bind group. -/
theorem c7_single_texture (fresh : Nat) (gpu_images : Nat → Option GpuImage)
    (img : GpuImage) (layout : Nat) :
    (setup fresh).sprite_texture = (setup fresh).image_handle ∧
    (setup fresh).conway_world = (setup fresh).image_handle ∧
    TextureUsage.STORAGE_BINDING ∈ (setup fresh).image.usage ∧
    TextureUsage.TEXTURE_BINDING ∈ (setup fresh).image.usage ∧
    TextureUsage.COPY_SRC ∈ (setup fresh).image.usage ∧
    TextureUsage.COPY_DST ∈ (setup fresh).image.usage ∧
    TextureUsage.RENDER_ATTACHMENT ∈ (setup fresh).image.usage ∧
    (gpu_images ((setup fresh).conway_world) = some img →
      prepare_bind_group gpu_images ((setup fresh).conway_world) layout =
        some { layout := layout
               entries := [{ binding := 0, texture_view := img.texture_view }] }) := by
  refine ⟨rfl, rfl, by simp [setup], by simp [setup], by simp [setup],
    by simp [setup], by simp [setup], ?_⟩
  intro himg
  simp [prepare_bind_group, himg]

/-- Witness for C7 at a concrete gpu-image table. -/
theorem c7_single_texture_witness :
    prepare_bind_group (fun _ => some example_image) ((setup 7).conway_world) 0 =
      some { layout := 0
             entries := [{ binding := 0, texture_view := example_image.texture_view }] } :=
  (c7_single_texture 7 (fun _ => some example_image) example_image 0).2.2.2.2.2.2.2 rfl

/-- C8: clicks are pending for at most one frame: clear_set_cells is
registered in the First schedule, it empties SetCells unconditionally, and
the SetCells contents visible after the First schedule of a frame do not
depend on the clicks of any earlier frame. -/
theorem c8_clicks_cleared_each_frame :
    (Schedule.First, SystemId.clear_set_cells) ∈ conway_plugin_main_systems ∧
    (∀ set_cells, clear_set_cells set_cells = []) ∧
    (∀ prev prev' input w, frame_set_cells prev input w = frame_set_cells prev' input w) ∧
    (∀ prev input w, (frame_set_cells prev input w).length ≤ 1) := by
  refine ⟨by simp [conway_plugin_main_systems], fun _ => rfl, fun _ _ _ _ => rfl, ?_⟩
  intro prev input w
  unfold frame_set_cells clear_set_cells
  by_cases hp : input.just_pressed_left
  · cases hc : w.cursor_position <;> simp [handle_mouse_click, hp, hc]
  · simp [handle_mouse_click, hp]

/-- C9: with no pending click node_run encodes neither a vertex buffer
nor a set-cells render pass; with pending clicks the set-cells path
creates one vertex buffer with the click list and one render pass over
the state texture view that loads the existing contents and draws the
vertex range 0 to the list length in a single instance. -/
theorem c9_set_cells_pass_shape (s : ConwayState) (w : RunWorld)
    (fx : List RunEffect) (r : Except NodeRunError Unit)
    (h : node_run s w = some (fx, r)) :
    (w.set_cells = [] → fx.filter is_set_cells_effect = []) ∧
    (w.set_cells ≠ [] → ∃ img rp,
      w.gpu_images w.conway_world = some img ∧
      w.pipeline_cache.get_render_pipeline w.pipeline.set_cells_pipeline = some rp ∧
      fx.filter is_set_cells_effect =
        [RunEffect.createVertexBuffer w.set_cells,
         RunEffect.renderPass img.texture_view LoadOp.Load rp
           w.set_cells (0, w.set_cells.length) (0, 1)]) := by
  obtain ⟨sc, hsc, -, hm⟩ := node_run_spec s w fx r h
  have hfil : fx.filter is_set_cells_effect = sc.filter is_set_cells_effect := by
    cases s with
    | Loading => rw [show fx = sc from hm]
    | Init =>
      obtain ⟨cp, -, hfx⟩ := hm
      rw [hfx, List.filter_append]
      simp [is_set_cells_effect]
    | Update =>
      obtain ⟨cp, -, hfx⟩ := hm
      rw [hfx, List.filter_append]
      simp [is_set_cells_effect]
  rcases set_cells_pass_spec w sc hsc with ⟨hnil, rfl⟩ | ⟨hne, img, rp, himg, hrp, rfl⟩
  · exact ⟨fun _ => by rw [hfil]; rfl, fun hne => absurd hnil hne⟩
  · refine ⟨fun hnil => absurd hnil hne, fun _ => ⟨img, rp, himg, hrp, ?_⟩⟩
    rw [hfil]
    simp [is_set_cells_effect]

/-- Witness for C9: one pending click yields exactly the vertex buffer and
the loading render pass. -/
theorem c9_set_cells_pass_shape_witness :
    example_set_cells_effects.filter is_set_cells_effect =
      example_set_cells_effects := by
  obtain ⟨img, rp, himg, hrp, hfil⟩ :=
    (c9_set_cells_pass_shape ConwayState.Loading example_world
      example_set_cells_effects (Except.ok ()) rfl).2 (by simp [example_world])
  obtain rfl : example_image = img := Option.some_injective _ himg
  obtain rfl : (3 : Nat) = rp := Option.some_injective _ hrp
  exact hfil

/-- C10: SIZE is (1280, 720) and WORKGROUP_SIZE is (8, 8), both grid
dimensions are divisible by 8, the dispatched workgroup grid times the
workgroup size covers exactly SIZE.1 by SIZE.2 cells, the output buffer
holds exactly one 4-byte pixel per cell, and every compute dispatch
encoded by node_run in the Update stage launches exactly
(SIZE.1 / 8, SIZE.2 / 8, 1) workgroups. -/
theorem c10_dispatch_covers_grid :
    SIZE = (1280, 720) ∧ WORKGROUP_SIZE = (8, 8) ∧
    SIZE.1 % WORKGROUP_SIZE.1 = 0 ∧ SIZE.2 % WORKGROUP_SIZE.2 = 0 ∧
    (SIZE.1 / WORKGROUP_SIZE.1) * WORKGROUP_SIZE.1 = SIZE.1 ∧
    (SIZE.2 / WORKGROUP_SIZE.2) * WORKGROUP_SIZE.2 = SIZE.2 ∧
    ((SIZE.1 / WORKGROUP_SIZE.1) * WORKGROUP_SIZE.1) *
      ((SIZE.2 / WORKGROUP_SIZE.2) * WORKGROUP_SIZE.2) = SIZE.1 * SIZE.2 ∧
    prepare_resources.size = SIZE.1 * SIZE.2 * 4 ∧
    prepare_resources.size = 4 * (SIZE.1 * SIZE.2) ∧
    (∀ (w : RunWorld) (fx : List RunEffect) (r : Except NodeRunError Unit)
        (bg cp : Nat) (dims : Nat × Nat × Nat),
        node_run ConwayState.Update w = some (fx, r) →
        RunEffect.computePass bg cp dims ∈ fx →
        dims = (SIZE.1 / 8, SIZE.2 / 8, 1)) := by
  refine ⟨rfl, rfl, rfl, rfl, rfl, rfl, rfl, rfl, rfl, ?_⟩
  intro w fx r bg cp dims h hmem
  obtain ⟨sc, hsc, -, hm⟩ := node_run_spec ConwayState.Update w fx r h
  obtain ⟨cp', hcp', hfx⟩ := hm
  subst hfx
  rcases List.mem_append.mp hmem with hin | hin
  · rcases set_cells_pass_spec w sc hsc with ⟨-, rfl⟩ | ⟨-, img, rp, -, -, rfl⟩
    · simp at hin
    · simp at hin
  · simp only [List.mem_singleton, RunEffect.computePass.injEq] at hin
    exact hin.2.2

/-- Witness for C10: the Update dispatch of a concrete world. -/
theorem c10_dispatch_covers_grid_witness :
    ((160, 90, 1) : Nat × Nat × Nat) = (SIZE.1 / 8, SIZE.2 / 8, 1) :=
  c10_dispatch_covers_grid.2.2.2.2.2.2.2.2.2 example_world_empty
    [RunEffect.computePass 9 2 (160, 90, 1)] (Except.ok ()) 9 2 (160, 90, 1)
    rfl (List.mem_singleton.mpr rfl)

end BevyGol
